import Mathlib

/-!
Shallow embedding of the authentication state machine of Shopify/shopify-app-express
(`src/packages/shopify-app-remix/src/auth/admin/authenticate.ts`,
`src/packages/shopify-app-remix/src/server/authenticate/admin/strategies/auth-code-flow.ts`,
`src/packages/apps/shopify-app-remix/src/server/authenticate/webhooks/authenticate.ts`).

TypeScript control flow that throws a terminal `Response` (or a typed error) is
embedded as the sum type `Res`: `.ok a` for a normal return, `.thrown e` for a
raised value.  External collaborators (session storage, the platform HTTP
client, the bot detector, helper modules that are not under `src/`) are
supplied as per-request oracle data in an environment record, so each embedded
function is a pure function of the request, the configuration and that
environment.
-/

namespace ShopifyAuth

/-- An HTTP response as observed by the embedding: status, statusText and
headers.  Response bodies are not modelled (no claim depends on them). -/
structure Resp where
  status : Nat
  statusText : String
  headers : List (String × String)
deriving Repr, DecidableEq

/-- The taxonomy of thrown errors used by the source
(`CookieNotFound`, `InvalidHmacError`, `InvalidOAuthError`, `InvalidJwtError`,
`InvalidShopError`, `HttpResponseError`, `GraphqlQueryError`, plus a generic
catch-all for any other exception). -/
inductive ErrKind where
  | cookieNotFound
  | invalidHmac
  | invalidOAuth
  | invalidJwt
  | invalidShop
  | httpResponse (code : Nat) (statusText : String) (body : String)
  | graphqlQuery (message : String) (hasResponse : Bool)
  | other (message : String)
deriving Repr, DecidableEq

/-- A thrown JavaScript value: either a `Response` (terminal) or a typed error. -/
inductive Exc where
  | resp (r : Resp)
  | err (e : ErrKind)
deriving Repr, DecidableEq

/-- Result of a TypeScript computation that may throw: a normal return or a
thrown value. -/
inductive Res (α : Type) where
  | ok (a : α)
  | thrown (e : Exc)
deriving Repr, DecidableEq

/-- Session record (the `Session` class lives in `@shopify/shopify-api`, not
under `src/`).  Modelled from the spec: attributes `id`, `shop`, `isOnline`,
`accessToken`, `scope`, and expiry collapsed to an `expired` flag. -/
structure Session where
  id : String
  shop : String
  isOnline : Bool
  accessToken : String
  scope : List String
  expired : Bool
deriving Repr, DecidableEq

/-- Modelled from the spec: "A session `isActive(requiredScopes)` iff not
expired AND granted scope ⊇ required scope" (the implementation lives in
`@shopify/shopify-api`, not under `src/`). -/
def Session.isActive (s : Session) (required : List String) : Bool :=
  !s.expired && required.all (fun sc => s.scope.contains sc)

/-- The parts of a validated session-token (JWT) payload the state machine
reads: the hostname of `dest` and the user subject `sub`. -/
structure JwtPayload where
  destHost : String
  sub : String
deriving Repr, DecidableEq

/-- Successful result of `api.auth.callback`: the new session plus response
headers to propagate onto the final redirect. -/
structure CallbackOk where
  session : Session
  responseHeaders : List (String × String)
deriving Repr, DecidableEq

/-- A parsed request URL: pathname and search parameters. -/
structure Url where
  pathname : String
  searchParams : List (String × String)
deriving Repr, DecidableEq

/-- Lookup of a search parameter, as in `url.searchParams.get(key)`. -/
def Url.getParam (u : Url) (key : String) : Option String :=
  (u.searchParams.find? (fun p => p.fst == key)).map (fun p => p.snd)

/-- An inbound HTTP request. -/
structure Request where
  method : String
  url : Url
  headers : List (String × String)
  body : String
deriving Repr, DecidableEq

/-- Lookup of a request header, as in `request.headers.get(key)` (header names are used with a single fixed
spelling throughout the embedding, so case-insensitivity is not modelled). -/
def Request.getHeader (req : Request) (key : String) : Option String :=
  (req.headers.find? (fun p => p.fst == key)).map (fun p => p.snd)

/-- The `config.auth` path configuration. -/
structure AuthPathConfig where
  path : String
  callbackPath : String
  exitIframePath : String
  patchSessionTokenPath : String
  loginPath : String
deriving Repr, DecidableEq

/-- The app configuration fields the state machine reads.
`hasAfterAuthHook` embeds the `config.hooks.afterAuth` presence check. -/
structure AppConfig where
  apiKey : String
  appUrl : String
  isEmbeddedApp : Bool
  useOnlineTokens : Bool
  hasAfterAuthHook : Bool
  scopes : List String
  auth : AuthPathConfig
deriving Repr, DecidableEq

/-- Embeds `Headers.set`: replace any existing header of that name. -/
def setHeader (hs : List (String × String)) (hname : String) (value : String) :
    List (String × String) :=
  hs.filter (fun p => p.fst != hname) ++ [(hname, value)]

/-- The 204 preflight response of `respondToOptionsRequest`. -/
def respOptions204 : Resp := ⟨204, "", [("Access-Control-Max-Age", "7200")]⟩

/-- The 400 response raised for an invalid shop param (its text body is not modelled). -/
def respShopParamInvalid : Resp := ⟨400, "", []⟩

/-- The 400 response with statusText Invalid OAuth Request. -/
def respInvalidOAuthRequest : Resp := ⟨400, "Invalid OAuth Request", []⟩

/-- The 500 response with statusText Internal Server Error. -/
def respInternalServerError : Resp := ⟨500, "Internal Server Error", []⟩

/-- The 405 response with statusText Method not allowed. -/
def respMethodNotAllowed : Resp := ⟨405, "Method not allowed", []⟩

/-- The 401 response with statusText Unauthorized. -/
def respUnauthorized : Resp := ⟨401, "Unauthorized", []⟩

/-- The 400 response with statusText Bad Request. -/
def respBadRequest : Resp := ⟨400, "Bad Request", []⟩

/-- Remix `redirect(url, {headers})`: a 302 response with a Location header. -/
def redirectResp (location : String) (extraHeaders : List (String × String)) : Resp :=
  ⟨302, "", extraHeaders ++ [("Location", location)]⟩

/-- Modelled from the spec: the custom re-auth-url header name exported from
`../const` (not under `src/`), "an exposed custom re-auth-url header". -/
def REAUTH_URL_HEADER : String := "X-Shopify-API-Request-Failure-Reauthorize-Url"

/-- Modelled from the spec: the helper `getSessionTokenHeader` (not under
`src/`) reads the bearer token from the `Authorization: Bearer <token>`
header ("Request carries a session-token bearer header"). -/
def getSessionTokenHeader (req : Request) : Option String :=
  match req.getHeader ("Authorization") with
  | some v =>
      if v.data.take 7 = ("Bearer ").data then some (String.mk (v.data.drop 7))
      else none
  | none => none

end ShopifyAuth

namespace ShopifyAuth.Webhook

/-- Modelled from the spec: the failure reasons of the webhook validator in
`@shopify/shopify-api` (not under `src/`): "Mismatch → `reason = InvalidHmac`.
Missing required headers (topic, shop domain, webhook id, api version) →
`reason = other validation failure`." -/
inductive WebhookFailReason where
  | invalidHmac
  | missingHmac
  | missingBody
  | missingTopicHeader
  | missingShopHeader
  | missingWebhookIdHeader
  | missingApiVersionHeader
deriving Repr, DecidableEq

/-- Result of `api.webhooks.validate` (collaborator, modelled from the spec
contract `validate(rawBody, rawRequest) -> {valid:true, shop, topic,
apiVersion, webhookId, subTopic?} | {valid:false, reason}`). -/
inductive WebhookCheck where
  | valid (domain : String) (topic : String) (apiVersion : String)
      (webhookId : String) (subTopic : Option String)
  | invalid (reason : WebhookFailReason)
deriving Repr, DecidableEq

/-- The admin capability handle attached to a webhook context
(`adminClientFactory({params, session})`): modelled by the session it is
bound to. -/
structure AdminHandle where
  session : Session
deriving Repr, DecidableEq

/-- The webhook context returned to application code
(`WebhookContext` in `src/unnamed/part_002`): the `session` and `admin`
fields are nullable, as in the source shape. -/
structure WebhookContext where
  apiVersion : String
  shop : String
  topic : String
  webhookId : String
  payload : String
  subTopic : Option String
  session : Option Session
  admin : Option AdminHandle
deriving Repr, DecidableEq

/-- Per-request oracle data for the webhook authenticator's collaborators:
the validator verdict, session storage, and the token-exchange call. -/
structure WebhookEnv where
  check : WebhookCheck
  loadOfflineSession : String → Option Session
  tokenExchange : String → String → Res Session
  storeOutcome : Session → Res Unit

/-- Embeds `getSessionFromTokenExchange` (webhooks/authenticate.ts 116-159):
exchange the id token for an offline session; storage failures are swallowed;
`InvalidJwtError`/`InvalidShopError` reject the request with a 400; any other
failure yields no session. -/
def getSessionFromTokenExchange (env : WebhookEnv) (idToken : String)
    (shop : String) : Res (Option Session) :=
  match env.tokenExchange shop idToken with
  | .ok session =>
      match env.storeOutcome session with
      | .ok _ => .ok (some session)
      | .thrown _ => .ok (some session)
  | .thrown e =>
      match e with
      | .err .invalidJwt => .thrown (.resp respBadRequest)
      | .err .invalidShop => .thrown (.resp respBadRequest)
      | _ => .ok none

/-- Embeds the session-recovery step of the webhook `authenticate` function
(webhooks/authenticate.ts 62-88): load the stored offline session; when
absent and the topic is not SHOP_REDACT and the request carries a
session-token header, attempt token-exchange recovery. -/
def webhookRecoveredSession (env : WebhookEnv) (req : Request)
    (domain topic : String) : Res (Option Session) :=
  let s0 := env.loadOfflineSession domain
  if s0.isNone && (topic != "SHOP_REDACT") then
    match getSessionTokenHeader req with
    | some idToken => getSessionFromTokenExchange env idToken domain
    | none => .ok s0
  else .ok s0

/-- The `webhookContext` object literal of webhooks/authenticate.ts 90-99
(before the session fields are attached): `session` and `admin` undefined,
`check.subTopic || undefined` mapping the empty string to undefined. -/
def baseWebhookContext (domain topic apiVersion webhookId : String)
    (subTopic : Option String) (rawBody : String) : WebhookContext :=
  { apiVersion := apiVersion
    shop := domain
    topic := topic
    webhookId := webhookId
    payload := rawBody
    subTopic :=
      match subTopic with
      | some st => if st == "" then none else some st
      | none => none
    session := none
    admin := none }

/-- Embeds the returned `authenticate` function of
`authenticateWebhookFactory` (webhooks/authenticate.ts 28-113). -/
def authenticateWebhook (env : WebhookEnv) (req : Request) : Res WebhookContext :=
  if req.method != "POST" then .thrown (.resp respMethodNotAllowed)
  else
    match env.check with
    | .invalid reason =>
        if reason == .invalidHmac then .thrown (.resp respUnauthorized)
        else .thrown (.resp respBadRequest)
    | .valid domain topic apiVersion webhookId subTopic =>
        match webhookRecoveredSession env req domain topic with
        | .thrown e => .thrown e
        | .ok (some s) =>
            .ok { baseWebhookContext domain topic apiVersion webhookId subTopic
                    req.body with
                  session := some s
                  admin := some ⟨s⟩ }
        | .ok none =>
            .ok (baseWebhookContext domain topic apiVersion webhookId subTopic
              req.body)

end ShopifyAuth.Webhook

namespace ShopifyAuth.Admin

/-- The `SessionContext` interface of authenticate.ts: the loaded session plus
the validated token payload when one was used. -/
structure SessionContext where
  session : Session
  token : Option JwtPayload
deriving Repr, DecidableEq

/-- The `AdminContext` handed to application code, restricted to the fields
the embedding models (the `admin`/`billing` capability factories are external
collaborators constructed from the same session). -/
structure AdminContext where
  session : Session
  sessionToken : Option JwtPayload
deriving Repr, DecidableEq

/-- Per-request oracle data for the admin state machine's collaborators:
`api.utils`/`api.session` helpers, session storage, the OAuth engine calls,
the bot detector, and the helper modules that are not under `src/`. -/
structure Env where
  botOutcome : Option Resp
  sanitizeShop : Option String → Option String
  sanitizeHost : Option String → Option String
  getOfflineId : String → String
  getJwtSessionId : String → String → String
  getCurrentId : Bool → Option String
  loadSession : String → Option Session
  callbackOutcome : Res CallbackOk
  storeSessionOutcome : Session → Res Unit
  afterAuthOutcome : Res Unit
  validateSessionToken : String → Res JwtPayload
  beginAuthResp : Bool → String → Resp
  exitIframeResp : String → Resp
  reauthRedirectResp : String → Resp
  bouncePageResp : Url → Resp
  embeddedAppUrl : Res String
  testSessionOutcome : Session → Res Unit
  encodeURIComponent : String → String

/-- Modelled from the spec: the helper `beginAuth` (not under `src/`) "builds
authorize URL ... returns a redirect response (terminal)", i.e. it raises the
begin-flow redirect; the concrete redirect per `(isOnline, shop)` is
environment data. -/
def beginAuth (env : Env) (isOnline : Bool) (shop : String) : Exc :=
  .resp (env.beginAuthResp isOnline shop)

/-- Modelled from the spec: the helper `redirectWithExitIframe` (not under
`src/`) raises a terminal response that navigates the top-level browsing
context out of the iframe before redirecting ("breaking out of iframe first if
embedded"); the concrete response per shop is environment data. -/
def redirectWithExitIframe (env : Env) (shop : String) : Exc :=
  .resp (env.exitIframeResp shop)

/-- Modelled from the spec: the helper `redirectToAuthPage` (not under `src/`)
raises the terminal response that restarts the begin flow for a missing or
inactive session ("if missing or inactive (scope/expiry), redirect to
begin-flow"); the concrete response per shop is environment data. -/
def redirectToAuthPage (env : Env) (shop : String) : Exc :=
  .resp (env.reauthRedirectResp shop)

/-- Modelled from the spec: the bot detector collaborator
"`(request) -> void | throws terminal response`" (`rejectBotRequest`, not
under `src/`); its verdict for this request is environment data. -/
def rejectBotRequest (env : Env) : Res Unit :=
  match env.botOutcome with
  | some r => .thrown (.resp r)
  | none => .ok ()

/-- Embeds `respondToOptionsRequest` (authenticate.ts 514-523). -/
def respondToOptionsRequest (req : Request) : Res Unit :=
  if req.method == "OPTIONS" then .thrown (.resp respOptions204) else .ok ()

/-- Embeds `ensureCORSHeaders` (authenticate.ts 525-537). -/
def ensureCORSHeaders (cfg : AppConfig) (req : Request) (r : Resp) : Resp :=
  if req.getHeader ("Origin") ≠ some cfg.appUrl then
    { r with
      headers :=
        setHeader
          (setHeader
            (setHeader r.headers ("Access-Control-Allow-Origin") ("*"))
            ("Access-Control-Allow-Headers") ("Authorization"))
          ("Access-Control-Expose-Headers") REAUTH_URL_HEADER }
  else r

/-- Embeds `renderAppBridge` (authenticate.ts 489-512): a 200 HTML response
whose body loads the app-bridge script (only status and content-type are
modelled; the body, including the optional redirect script, is not). -/
def renderAppBridge (_redirectTo : Option String) : Resp :=
  ⟨200, "", [("content-type", "text/html;charset=utf-8")]⟩

/-- Embeds `ensureValidShopParam` (authenticate.ts 331-343). -/
def ensureValidShopParam (env : Env) (req : Request) : Res String :=
  match env.sanitizeShop (req.url.getParam ("shop")) with
  | some shop => .ok shop
  | none => .thrown (.resp respShopParamInvalid)

/-- Embeds `handleAuthBeginRequest(request, shop)` of auth-code-flow.ts
207-227, which is also the post-validation part of authenticate.ts
`handleAuthBeginRequest`. -/
def handleAuthBeginRequestWithShop (cfg : AppConfig) (env : Env) (req : Request)
    (shop : String) : Exc :=
  if cfg.isEmbeddedApp && (req.getHeader ("Sec-Fetch-Dest") == some "iframe") then
    redirectWithExitIframe env shop
  else
    beginAuth env false shop

/-- Embeds `handleAuthBeginRequest` (authenticate.ts 142-161): validate the
shop param, then begin the flow (exiting the iframe first when needed).
Always raises; the result is the thrown value. -/
def handleAuthBeginRequest (cfg : AppConfig) (env : Env) (req : Request) : Exc :=
  match ensureValidShopParam env req with
  | .thrown e => e
  | .ok shop => handleAuthBeginRequestWithShop cfg env req shop

/-- Embeds `redirectToShopifyOrAppRoot` (authenticate.ts 455-470).  The `!`
assertions on the sanitized params are modelled as the JavaScript
string-template coercion of `null`. -/
def redirectToShopifyOrAppRoot (cfg : AppConfig) (env : Env) (req : Request)
    (responseHeaders : List (String × String)) : Exc :=
  let host := (env.sanitizeHost (req.url.getParam ("host"))).getD ("null")
  let shop := (env.sanitizeShop (req.url.getParam ("shop"))).getD ("null")
  if cfg.isEmbeddedApp then
    match env.embeddedAppUrl with
    | .thrown e => e
    | .ok u => .resp (redirectResp u responseHeaders)
  else
    .resp (redirectResp
      ("/?shop=" ++ shop ++ "&host=" ++ env.encodeURIComponent host)
      responseHeaders)

/-- Embeds the error mapping of the OAuth callback catch block
(`oauthCallbackError`, auth-code-flow.ts 313-339, identical to the inline
catch of authenticate.ts 196-213 once the shop param has been validated):
`CookieNotFound` restarts the begin flow, `InvalidHmacError`/
`InvalidOAuthError` yield a 400, anything else a 500. -/
def oauthCallbackError (cfg : AppConfig) (env : Env) (req : Request)
    (shop : String) (e : ErrKind) : Exc :=
  match e with
  | .cookieNotFound => handleAuthBeginRequestWithShop cfg env req shop
  | .invalidHmac => .resp respInvalidOAuthRequest
  | .invalidOAuth => .resp respInvalidOAuthRequest
  | _ => .resp respInternalServerError

/-- Embeds the `try` block of `handleAuthCallbackRequest` (authenticate.ts
170-190): run `api.auth.callback`, store the session, begin the online flow
when an offline flow completed under `useOnlineTokens`, run the `afterAuth`
hook and raise the final redirect.  The block always raises; the result is
the thrown value. -/
def callbackTryBody (cfg : AppConfig) (env : Env) (req : Request)
    (shop : String) : Exc :=
  match env.callbackOutcome with
  | .thrown e => e
  | .ok cb =>
      match env.storeSessionOutcome cb.session with
      | .thrown e => e
      | .ok _ =>
          if cfg.useOnlineTokens && !cb.session.isOnline then
            beginAuth env true shop
          else
            match (if cfg.hasAfterAuthHook then env.afterAuthOutcome else .ok ()) with
            | .thrown e => e
            | .ok _ => redirectToShopifyOrAppRoot cfg env req cb.responseHeaders

/-- Embeds `handleAuthCallbackRequest` (authenticate.ts 163-215): validate the
shop param, run the callback body, rethrow thrown `Response`s unchanged and
map typed errors through the callback error mapping.  Always raises; the
result is the thrown value. -/
def handleAuthCallbackRequest (cfg : AppConfig) (env : Env) (req : Request) : Exc :=
  match ensureValidShopParam env req with
  | .thrown e => e
  | .ok shop =>
      match callbackTryBody cfg env req shop with
      | .resp r => .resp r
      | .err e => oauthCallbackError cfg env req shop e

/-- Embeds `validateUrlParams` (authenticate.ts 217-238). -/
def validateUrlParams (cfg : AppConfig) (env : Env) (req : Request) : Res Unit :=
  match env.sanitizeShop (req.url.getParam ("shop")) with
  | none => .thrown (.resp (redirectResp cfg.auth.loginPath []))
  | some _ =>
      if cfg.isEmbeddedApp then
        match env.sanitizeHost (req.url.getParam ("host")) with
        | none => .thrown (.resp (redirectResp cfg.auth.loginPath []))
        | some _ => .ok ()
      else .ok ()

/-- Embeds the catch block of the offline-session liveness check
(authenticate.ts 273-309, identical to `handleInvalidOfflineSession` of
auth-code-flow.ts 341-380): a 401 `HttpResponseError` restarts the begin
flow, another `HttpResponseError` echoes its upstream status, a
`GraphqlQueryError` yields a 500, and any other thrown value falls through
the `instanceof` chain and is swallowed. -/
def handleInvalidOfflineSession (cfg : AppConfig) (env : Env) (req : Request)
    (shop : String) (e : Exc) : Res Unit :=
  match e with
  | .err (.httpResponse code statusText _body) =>
      if code == 401 then .thrown (beginAuth env false shop)
      else .thrown (.resp ⟨code, statusText, []⟩)
  | .err (.graphqlQuery _message _hasResponse) =>
      .thrown (.resp respInternalServerError)
  | _ => .ok ()

/-- Embeds `ensureInstalledOnShop` (authenticate.ts 240-311): load the stored
offline session (begin OAuth if absent, exiting the iframe when `embedded=1`),
then, for an embedded-configured app serving a non-embedded document load,
probe the session with the shop-name query (`testSession`) and map probe
failures through the catch block. -/
def ensureInstalledOnShop (cfg : AppConfig) (env : Env) (req : Request) : Res Unit :=
  let shop := (req.url.getParam ("shop")).getD ("null")
  let isEmbedded := req.url.getParam ("embedded") == some "1"
  match env.loadSession (env.getOfflineId shop) with
  | none =>
      if isEmbedded then .thrown (redirectWithExitIframe env shop)
      else .thrown (beginAuth env false shop)
  | some offlineSession =>
      if cfg.isEmbeddedApp && !isEmbedded then
        match env.testSessionOutcome offlineSession with
        | .ok _ => .ok ()
        | .thrown e => handleInvalidOfflineSession cfg env req shop e
      else .ok ()

/-- Embeds `ensureAppIsEmbeddedIfRequired` (authenticate.ts 345-355). -/
def ensureAppIsEmbeddedIfRequired (cfg : AppConfig) (env : Env) (req : Request) :
    Res Unit :=
  if cfg.isEmbeddedApp && (req.url.getParam ("embedded") != some "1") then
    .thrown (redirectToShopifyOrAppRoot cfg env req [])
  else .ok ()

/-- Embeds `ensureSessionTokenSearchParamIfRequired` (authenticate.ts
357-371); the bounce-page redirect built by `redirectToBouncePage`
(authenticate.ts 472-487) uses URL/`URLSearchParams` mutation and is supplied
as the environment's bounce response for the request URL. -/
def ensureSessionTokenSearchParamIfRequired (cfg : AppConfig) (env : Env)
    (req : Request) : Res Unit :=
  if cfg.isEmbeddedApp && (req.url.getParam ("id_token")).isNone then
    .thrown (.resp (env.bouncePageResp req.url))
  else .ok ()

/-- Embeds `loadSession` (authenticate.ts 431-453): missing or inactive
stored sessions raise the re-auth redirect. -/
def loadSession (cfg : AppConfig) (env : Env) (shop : String)
    (sessionId : String) : Res Session :=
  match env.loadSession sessionId with
  | none => .thrown (redirectToAuthPage env shop)
  | some session =>
      if !(session.isActive cfg.scopes) then .thrown (redirectToAuthPage env shop)
      else .ok session

/-- Embeds `validateAuthenticatedSession` (authenticate.ts 411-429). -/
def validateAuthenticatedSession (cfg : AppConfig) (env : Env)
    (payload : JwtPayload) : Res SessionContext :=
  let shop := payload.destHost
  let sessionId :=
    if cfg.useOnlineTokens then env.getJwtSessionId shop payload.sub
    else env.getOfflineId shop
  match loadSession cfg env shop sessionId with
  | .thrown e => .thrown e
  | .ok s => .ok ⟨s, some payload⟩

/-- Embeds `ensureSessionExists` (authenticate.ts 373-409). -/
def ensureSessionExists (cfg : AppConfig) (env : Env) (req : Request) :
    Res SessionContext :=
  let shop := (req.url.getParam ("shop")).getD ("null")
  if cfg.isEmbeddedApp then
    let searchParamSessionToken := (req.url.getParam ("id_token")).getD ("null")
    match env.validateSessionToken searchParamSessionToken with
    | .thrown e => .thrown e
    | .ok payload => validateAuthenticatedSession cfg env payload
  else
    match env.getCurrentId cfg.useOnlineTokens with
    | none => .thrown (beginAuth env false shop)
    | some sessionId =>
        match loadSession cfg env shop sessionId with
        | .thrown e => .thrown e
        | .ok s => .ok ⟨s, none⟩

/-- Embeds `authenticateAndGetSessionContext` (authenticate.ts 97-140): phase
dispatch on path, then the bearer-header and document-load branches. -/
def authenticateAndGetSessionContext (cfg : AppConfig) (env : Env)
    (req : Request) : Res SessionContext :=
  if req.url.pathname == cfg.auth.patchSessionTokenPath then
    .thrown (.resp (renderAppBridge none))
  else if req.url.pathname == cfg.auth.exitIframePath then
    .thrown (.resp (renderAppBridge (req.url.getParam ("exitIframe"))))
  else if req.url.pathname == cfg.auth.callbackPath then
    .thrown (handleAuthCallbackRequest cfg env req)
  else if req.url.pathname == cfg.auth.path then
    .thrown (handleAuthBeginRequest cfg env req)
  else
    match getSessionTokenHeader req with
    | some tok =>
        match env.validateSessionToken tok with
        | .thrown e => .thrown e
        | .ok payload => validateAuthenticatedSession cfg env payload
    | none =>
        match validateUrlParams cfg env req with
        | .thrown e => .thrown e
        | .ok _ =>
        match ensureInstalledOnShop cfg env req with
        | .thrown e => .thrown e
        | .ok _ =>
        match ensureAppIsEmbeddedIfRequired cfg env req with
        | .thrown e => .thrown e
        | .ok _ =>
        match ensureSessionTokenSearchParamIfRequired cfg env req with
        | .thrown e => .thrown e
        | .ok _ => ensureSessionExists cfg env req

/-- Embeds `authenticateAdmin` (authenticate.ts 62-95): bot rejection, the
OPTIONS preflight response, session-context authentication with CORS
decoration of thrown `Response`s, then the returned context (with the session
token attached for embedded apps). -/
def authenticateAdmin (cfg : AppConfig) (env : Env) (req : Request) :
    Res AdminContext :=
  match rejectBotRequest env with
  | .thrown e => .thrown e
  | .ok _ =>
  match respondToOptionsRequest req with
  | .thrown e => .thrown e
  | .ok _ =>
  match authenticateAndGetSessionContext cfg env req with
  | .thrown (.resp r) => .thrown (.resp (ensureCORSHeaders cfg req r))
  | .thrown (.err e) => .thrown (.err e)
  | .ok sc =>
      .ok { session := sc.session
            sessionToken := if cfg.isEmbeddedApp then sc.token else none }

end ShopifyAuth.Admin

namespace ShopifyAuth

open ShopifyAuth.Webhook ShopifyAuth.Admin

/-! Concrete fixtures used to evaluate the embedded functions on closed
inputs. -/

/-- A concrete embedded-app configuration. -/
def cfgE : AppConfig :=
  { apiKey := "api-key"
    appUrl := "https://app.example.com"
    isEmbeddedApp := true
    useOnlineTokens := false
    hasAfterAuthHook := false
    scopes := ["read_products"]
    auth :=
      { path := "/auth"
        callbackPath := "/auth/callback"
        exitIframePath := "/exitiframe"
        patchSessionTokenPath := "/auth/session-token"
        loginPath := "/auth/login" } }

/-- The configuration `cfgE` with online tokens enabled. -/
def cfgOnline : AppConfig := { cfgE with useOnlineTokens := true }

/-- A concrete stored offline session for `shop1.myshopify.com`. -/
def sessionA : Session :=
  ⟨"offline_shop1.myshopify.com", "shop1.myshopify.com", false, "atoken",
    ["read_products"], false⟩

/-- A concrete admin environment: permissive sanitizers, empty storage, a
successful callback producing `sessionA`, and distinct named redirects for
each raising helper. -/
def envBase : Admin.Env :=
  { botOutcome := none
    sanitizeShop := fun s => s
    sanitizeHost := fun s => s
    getOfflineId := fun shop => "offline_" ++ shop
    getJwtSessionId := fun shop sub => shop ++ "_" ++ sub
    getCurrentId := fun _ => none
    loadSession := fun _ => none
    callbackOutcome := .ok ⟨sessionA, []⟩
    storeSessionOutcome := fun _ => .ok ()
    afterAuthOutcome := .ok ()
    validateSessionToken := fun _ => .thrown (.err .invalidJwt)
    beginAuthResp := fun isOnline shop =>
      ⟨302, "",
        [("Location",
          "https://platform/authorize/" ++
            (if isOnline then "online/" else "offline/") ++ shop)]⟩
    exitIframeResp := fun shop =>
      ⟨302, "", [("Location", "https://app.example.com/exitiframe/" ++ shop)]⟩
    reauthRedirectResp := fun shop =>
      ⟨302, "", [("Location", "https://app.example.com/auth?shop=" ++ shop)]⟩
    bouncePageResp := fun _ =>
      ⟨302, "", [("Location", "https://app.example.com/auth/session-token")]⟩
    embeddedAppUrl := .ok "https://admin.platform/apps/api-key"
    testSessionOutcome := fun _ => .ok ()
    encodeURIComponent := fun s => s }

/-- A concrete OAuth callback request. -/
def reqCb : Request :=
  { method := "GET"
    url :=
      { pathname := "/auth/callback"
        searchParams :=
          [("shop", "shop1.myshopify.com"), ("host", "aG9zdA"),
            ("code", "c0de"), ("state", "n0nce")] }
    headers := []
    body := "" }

/-- A concrete non-embedded document-load request. -/
def reqDoc : Request :=
  { method := "GET"
    url :=
      { pathname := "/app"
        searchParams := [("shop", "shop1.myshopify.com"), ("host", "aG9zdA")] }
    headers := []
    body := "" }

/-- A concrete cross-origin OPTIONS preflight request. -/
def reqOptionsCross : Request :=
  { method := "OPTIONS"
    url := { pathname := "/app", searchParams := [] }
    headers := [("Origin", "https://evil.example")]
    body := "" }

/-- A concrete webhook environment with a valid verdict, empty storage and a
failing token exchange. -/
def wenvBase : WebhookEnv :=
  { check := .valid "shop1.myshopify.com" "APP_UNINSTALLED" "2024-01" "wh-1" none
    loadOfflineSession := fun _ => none
    tokenExchange := fun _ _ => .thrown (.err (.other "network"))
    storeOutcome := fun _ => .ok () }

/-- A concrete webhook POST request carrying a session-token bearer header. -/
def reqWebhook : Request :=
  { method := "POST"
    url := { pathname := "/webhooks", searchParams := [] }
    headers := [("Authorization", "Bearer jwt-token")]
    body := "p" }

/-! Helper lemmas about header manipulation. -/

/-- Setting a header makes it present. -/
theorem mem_setHeader_self (hs : List (String × String)) (hname value : String) :
    (hname, value) ∈ setHeader hs hname value := by
  simp [setHeader]

/-- Setting a header with a different name preserves membership. -/
theorem mem_setHeader_of_ne (hs : List (String × String))
    (hname value hname' value' : String) (hne : hname ≠ hname')
    (h : (hname, value) ∈ hs) : (hname, value) ∈ setHeader hs hname' value' := by
  simp only [setHeader, List.mem_append, List.mem_filter]
  exact Or.inl ⟨h, by simpa using hne⟩

/-- After `ensureCORSHeaders` on a cross-origin request, the three CORS
headers are present. -/
theorem ensureCORSHeaders_mem (cfg : AppConfig) (req : Request) (r : Resp)
    (horigin : req.getHeader ("Origin") ≠ some cfg.appUrl) :
    ("Access-Control-Allow-Origin", "*") ∈ (ensureCORSHeaders cfg req r).headers
  ∧ ("Access-Control-Allow-Headers", "Authorization")
      ∈ (ensureCORSHeaders cfg req r).headers
  ∧ ("Access-Control-Expose-Headers", REAUTH_URL_HEADER)
      ∈ (ensureCORSHeaders cfg req r).headers := by
  simp only [ensureCORSHeaders, if_pos horigin]
  refine ⟨?_, ?_, ?_⟩
  · exact mem_setHeader_of_ne _ _ _ _ _ (by decide)
      (mem_setHeader_of_ne _ _ _ _ _ (by decide) (mem_setHeader_self _ _ _))
  · exact mem_setHeader_of_ne _ _ _ _ _ (by decide) (mem_setHeader_self _ _ _)
  · exact mem_setHeader_self _ _ _

/-- C7: For every POST webhook request that fails validation, the
authenticator raises a terminal 401 response when the failure reason is an
HMAC signature mismatch, and a terminal 400 response for every other
validation failure; no webhook context is returned in either case (the result
is a thrown response, not an `.ok` context). -/
theorem c7_webhook_validation_failure_mapping (env : WebhookEnv) (req : Request)
    (reason : WebhookFailReason)
    (hm : req.method = "POST") (hcheck : env.check = .invalid reason) :
    (reason = .invalidHmac →
        authenticateWebhook env req = .thrown (.resp respUnauthorized))
  ∧ (reason ≠ .invalidHmac →
        authenticateWebhook env req = .thrown (.resp respBadRequest)) := by
  constructor
  · intro hr
    simp [authenticateWebhook, hm, hcheck, hr]
  · intro hr
    simp [authenticateWebhook, hm, hcheck, hr]

/-- Witness for C7: a concrete POST webhook whose validator verdict is a
missing-topic-header failure is rejected with a terminal 400. -/
theorem c7_witness :
    authenticateWebhook { wenvBase with check := .invalid .missingTopicHeader }
        reqWebhook
      = .thrown (.resp respBadRequest) :=
  (c7_webhook_validation_failure_mapping
      { wenvBase with check := .invalid .missingTopicHeader } reqWebhook
      .missingTopicHeader rfl rfl).2 (by decide)

/-- C8: During webhook-time token-exchange recovery (valid POST webhook, no
stored offline session, topic other than SHOP_REDACT, session-token header
present), an exchange failure with `InvalidJwtError` or `InvalidShopError`
rejects the request with a terminal 400 response, while any other exchange
failure returns the webhook context with `session` (and `admin`) undefined
rather than failing the request. -/
theorem c8_token_exchange_failure_mapping (env : WebhookEnv) (req : Request)
    (domain topic apiV wid : String) (sub : Option String) (tok : String)
    (hm : req.method = "POST")
    (hcheck : env.check = .valid domain topic apiV wid sub)
    (hload : env.loadOfflineSession domain = none)
    (htopic : topic ≠ "SHOP_REDACT")
    (htok : getSessionTokenHeader req = some tok) :
    ((env.tokenExchange domain tok = .thrown (.err .invalidJwt) ∨
      env.tokenExchange domain tok = .thrown (.err .invalidShop)) →
        authenticateWebhook env req = .thrown (.resp respBadRequest))
  ∧ (∀ e : Exc, e ≠ .err .invalidJwt → e ≠ .err .invalidShop →
        env.tokenExchange domain tok = .thrown e →
        ∃ ctx, authenticateWebhook env req = .ok ctx
          ∧ ctx.session = none ∧ ctx.admin = none) := by
  constructor
  · rintro (hex | hex) <;>
      simp [authenticateWebhook, webhookRecoveredSession, hm, hcheck, hload,
        htopic, htok, getSessionFromTokenExchange, hex]
  · intro e h1 h2 hex
    refine ⟨baseWebhookContext domain topic apiV wid sub req.body, ?_, rfl, rfl⟩
    have hnone : getSessionFromTokenExchange env tok domain = .ok none := by
      match e, h1, h2 with
      | .resp r, _, _ => simp [getSessionFromTokenExchange, hex]
      | .err .cookieNotFound, _, _ => simp [getSessionFromTokenExchange, hex]
      | .err .invalidHmac, _, _ => simp [getSessionFromTokenExchange, hex]
      | .err .invalidOAuth, _, _ => simp [getSessionFromTokenExchange, hex]
      | .err (.httpResponse c st b), _, _ =>
          simp [getSessionFromTokenExchange, hex]
      | .err (.graphqlQuery m hr), _, _ =>
          simp [getSessionFromTokenExchange, hex]
      | .err (.other m), _, _ => simp [getSessionFromTokenExchange, hex]
    simp [authenticateWebhook, webhookRecoveredSession, hm, hcheck, hload,
      htopic, htok, hnone]

/-- Witness for C8: with a concrete webhook environment whose token exchange
fails with a network-style error, the authenticator still returns a context
with no session. -/
theorem c8_witness :
    ∃ ctx, authenticateWebhook wenvBase reqWebhook = .ok ctx
      ∧ ctx.session = none ∧ ctx.admin = none :=
  (c8_token_exchange_failure_mapping wenvBase reqWebhook
      "shop1.myshopify.com" "APP_UNINSTALLED" "2024-01" "wh-1" none "jwt-token"
      rfl rfl rfl (by decide) (by decide)).2
    (.err (.other "network")) (by decide) (by decide) rfl

/-- C9: For every successful token exchange during webhook authentication
(valid POST webhook, no stored offline session, topic other than SHOP_REDACT,
session-token header present), a throwing session store is swallowed: the
authenticator's result is the same as when storage succeeds, and the caller
receives the exchanged session in the webhook context. -/
theorem c9_store_failure_swallowed (env : WebhookEnv) (req : Request)
    (domain topic apiV wid : String) (sub : Option String) (tok : String)
    (s : Session)
    (hm : req.method = "POST")
    (hcheck : env.check = .valid domain topic apiV wid sub)
    (hload : env.loadOfflineSession domain = none)
    (htopic : topic ≠ "SHOP_REDACT")
    (htok : getSessionTokenHeader req = some tok)
    (hex : env.tokenExchange domain tok = .ok s) :
    (∀ e : Exc,
        authenticateWebhook { env with storeOutcome := fun _ => .thrown e } req
          = authenticateWebhook { env with storeOutcome := fun _ => .ok () } req)
  ∧ (∃ ctx, authenticateWebhook env req = .ok ctx
        ∧ ctx.session = some s ∧ ctx.admin = some ⟨s⟩) := by
  constructor
  · intro e
    simp [authenticateWebhook, webhookRecoveredSession, hm, hcheck, hload,
      htopic, htok, getSessionFromTokenExchange, hex]
  · refine ⟨{ baseWebhookContext domain topic apiV wid sub req.body with
        session := some s, admin := some ⟨s⟩ }, ?_, rfl, rfl⟩
    cases hst : env.storeOutcome s <;>
      simp [authenticateWebhook, webhookRecoveredSession, hm, hcheck, hload,
        htopic, htok, getSessionFromTokenExchange, hex, hst]

/-- Witness for C9: with a concrete webhook environment whose token exchange
succeeds and whose session store throws, the context still carries the
exchanged session. -/
theorem c9_witness :
    ∃ ctx,
      authenticateWebhook
          { wenvBase with
            tokenExchange := fun _ _ => .ok sessionA
            storeOutcome := fun _ => .thrown (.err (.other "db down")) }
          reqWebhook
        = .ok ctx ∧ ctx.session = some sessionA ∧ ctx.admin = some ⟨sessionA⟩ :=
  (c9_store_failure_swallowed
      { wenvBase with
        tokenExchange := fun _ _ => .ok sessionA
        storeOutcome := fun _ => .thrown (.err (.other "db down")) }
      reqWebhook "shop1.myshopify.com" "APP_UNINSTALLED" "2024-01" "wh-1" none
      "jwt-token" sessionA rfl rfl rfl (by decide) (by decide) rfl).2

/-- C10: For every valid POST webhook with topic SHOP_REDACT and no stored
offline session, token-exchange recovery is never attempted (the result does
not depend on the exchange collaborator) and the returned context has
`session` and `admin` undefined even when the request carries a session-token
header; moreover, in every returned webhook context the `session` and `admin`
fields are either both present (with the admin handle bound to that session)
or both undefined. -/
theorem c10_shop_redact_and_pairing (env : WebhookEnv) (req : Request) :
    (∀ domain apiV wid : String, ∀ sub : Option String,
        req.method = "POST" →
        env.check = .valid domain "SHOP_REDACT" apiV wid sub →
        env.loadOfflineSession domain = none →
        (∀ f, authenticateWebhook { env with tokenExchange := f } req
            = authenticateWebhook env req)
        ∧ ∃ ctx, authenticateWebhook env req = .ok ctx
            ∧ ctx.session = none ∧ ctx.admin = none)
  ∧ (∀ ctx, authenticateWebhook env req = .ok ctx →
        (ctx.session = none ∧ ctx.admin = none)
        ∨ ∃ s, ctx.session = some s ∧ ctx.admin = some ⟨s⟩) := by
  constructor
  · intro domain apiV wid sub hm hcheck hload
    refine ⟨?_, ?_⟩
    · intro f
      simp [authenticateWebhook, webhookRecoveredSession, hm, hcheck, hload]
    · refine ⟨baseWebhookContext domain "SHOP_REDACT" apiV wid sub req.body,
        ?_, rfl, rfl⟩
      simp [authenticateWebhook, webhookRecoveredSession, hm, hcheck, hload]
  · intro ctx h
    unfold authenticateWebhook at h
    split at h
    · simp at h
    · split at h
      · split at h <;> simp at h
      · rename_i domain topic apiV wid sub heq
        cases hrec : webhookRecoveredSession env req domain topic with
        | thrown e => rw [hrec] at h; simp at h
        | ok session =>
            rw [hrec] at h
            cases session with
            | some s =>
                injection h with h
                subst h
                exact Or.inr ⟨s, rfl, rfl⟩
            | none =>
                injection h with h
                subst h
                exact Or.inl ⟨rfl, rfl⟩

/-! Additional admin fixtures. -/

/-- The environment `envBase` with `api.auth.callback` throwing `CookieNotFound`. -/
def envCbCookie : Admin.Env :=
  { envBase with callbackOutcome := .thrown (.err .cookieNotFound) }

/-- The environment `envBase` with an installed offline session whose liveness probe fails
with an upstream 403 `HttpResponseError`. -/
def envProbe403 : Admin.Env :=
  { envBase with
    loadSession := fun _ => some sessionA
    testSessionOutcome := fun _ =>
      .thrown (.err (.httpResponse 403 "Forbidden" "errbody")) }

/-- The environment `envBase` with an installed offline session whose liveness probe fails
with an upstream 401 `HttpResponseError`. -/
def envProbe401 : Admin.Env :=
  { envBase with
    loadSession := fun _ => some sessionA
    testSessionOutcome := fun _ =>
      .thrown (.err (.httpResponse 401 "Unauthorized" "errbody")) }

/-- The terminal response of a rejecting bot detector. -/
def respBotRejected : Resp := ⟨410, "Gone", []⟩

/-- The environment `envBase` with a rejecting bot detector. -/
def envBot : Admin.Env := { envBase with botOutcome := some respBotRejected }

/-- A concrete cross-origin GET request for the bounce (patch-session-token)
path. -/
def reqPatch : Request :=
  { method := "GET"
    url := { pathname := "/auth/session-token", searchParams := [] }
    headers := [("Origin", "https://evil.example")]
    body := "" }

/-- The CORS-decorated app-bridge response raised for `reqPatch`. -/
def respPatchCors : Resp :=
  ⟨200, "",
    [("content-type", "text/html;charset=utf-8"),
      ("Access-Control-Allow-Origin", "*"),
      ("Access-Control-Allow-Headers", "Authorization"),
      ("Access-Control-Expose-Headers",
        "X-Shopify-API-Request-Failure-Reauthorize-Url")]⟩

/-- C1: For every OAuth callback request (one whose shop parameter sanitizes
successfully), the error raised while handling the callback is mapped as
follows: a thrown `Response` value propagates unchanged; a `CookieNotFound`
error restarts the OAuth begin flow (same outcome as a fresh begin request);
an `InvalidHmacError` or `InvalidOAuthError` produces a terminal 400
response; and any other exception produces a terminal 500 response. -/
theorem c1_oauth_callback_error_mapping (cfg : AppConfig) (env : Admin.Env)
    (req : Request) (shop : String)
    (hshop : env.sanitizeShop (req.url.getParam ("shop")) = some shop) :
    (∀ r : Resp, env.callbackOutcome = .thrown (.resp r) →
        handleAuthCallbackRequest cfg env req = .resp r)
  ∧ (env.callbackOutcome = .thrown (.err .cookieNotFound) →
        handleAuthCallbackRequest cfg env req
          = handleAuthBeginRequest cfg env req)
  ∧ (∀ e : ErrKind, (e = .invalidHmac ∨ e = .invalidOAuth) →
        env.callbackOutcome = .thrown (.err e) →
        handleAuthCallbackRequest cfg env req = .resp respInvalidOAuthRequest)
  ∧ (∀ e : ErrKind, e ≠ .cookieNotFound → e ≠ .invalidHmac →
        e ≠ .invalidOAuth →
        env.callbackOutcome = .thrown (.err e) →
        handleAuthCallbackRequest cfg env req = .resp respInternalServerError) := by
  refine ⟨?_, ?_, ?_, ?_⟩
  · intro r h
    simp [handleAuthCallbackRequest, ensureValidShopParam, hshop,
      callbackTryBody, h]
  · intro h
    simp [handleAuthCallbackRequest, handleAuthBeginRequest,
      ensureValidShopParam, hshop, callbackTryBody, h, oauthCallbackError]
  · rintro e (rfl | rfl) h <;>
      simp [handleAuthCallbackRequest, ensureValidShopParam, hshop,
        callbackTryBody, h, oauthCallbackError]
  · intro e h1 h2 h3 h
    match e, h1, h2, h3 with
    | .invalidJwt, _, _, _ =>
        simp [handleAuthCallbackRequest, ensureValidShopParam, hshop,
          callbackTryBody, h, oauthCallbackError]
    | .invalidShop, _, _, _ =>
        simp [handleAuthCallbackRequest, ensureValidShopParam, hshop,
          callbackTryBody, h, oauthCallbackError]
    | .httpResponse c st b, _, _, _ =>
        simp [handleAuthCallbackRequest, ensureValidShopParam, hshop,
          callbackTryBody, h, oauthCallbackError]
    | .graphqlQuery m hr, _, _, _ =>
        simp [handleAuthCallbackRequest, ensureValidShopParam, hshop,
          callbackTryBody, h, oauthCallbackError]
    | .other m, _, _, _ =>
        simp [handleAuthCallbackRequest, ensureValidShopParam, hshop,
          callbackTryBody, h, oauthCallbackError]

/-- Witness for C1: a concrete callback request whose `api.auth.callback`
throws `CookieNotFound` produces the same outcome as a fresh begin request. -/
theorem c1_witness :
    handleAuthCallbackRequest cfgE envCbCookie reqCb
      = handleAuthBeginRequest cfgE envCbCookie reqCb :=
  (c1_oauth_callback_error_mapping cfgE envCbCookie reqCb
      "shop1.myshopify.com" rfl).2.1 rfl

/-- C2: For every successful OAuth callback that produced an offline session
(and stored it without error) while the app is configured with
`useOnlineTokens`, the handler immediately begins a second, online-mode OAuth
flow: the terminal response of the callback request is the online begin-flow
redirect. -/
theorem c2_offline_callback_begins_online_flow (cfg : AppConfig)
    (env : Admin.Env) (req : Request) (shop : String) (cb : CallbackOk)
    (hshop : env.sanitizeShop (req.url.getParam ("shop")) = some shop)
    (hcb : env.callbackOutcome = .ok cb)
    (hoffline : cb.session.isOnline = false)
    (honline : cfg.useOnlineTokens = true)
    (hstore : env.storeSessionOutcome cb.session = .ok ()) :
    handleAuthCallbackRequest cfg env req
      = .resp (env.beginAuthResp true shop) := by
  simp [handleAuthCallbackRequest, ensureValidShopParam, hshop,
    callbackTryBody, hcb, hstore, honline, hoffline, beginAuth]

/-- Witness for C2: a concrete callback under `useOnlineTokens` whose
`api.auth.callback` yields the offline `sessionA` terminates with the online
begin-flow redirect. -/
theorem c2_witness :
    handleAuthCallbackRequest cfgOnline envBase reqCb
      = .resp (envBase.beginAuthResp true "shop1.myshopify.com") :=
  c2_offline_callback_begins_online_flow cfgOnline envBase reqCb
    "shop1.myshopify.com" ⟨sessionA, []⟩ rfl rfl rfl rfl rfl

/-- C3 counterexample: a stored offline session whose liveness probe fails
with an upstream 403 `HttpResponseError` produces a terminal 403 response
echoing the upstream status — not the terminal 500 the claim requires for
every non-401 probe failure. -/
theorem c3_counterexample :
    envProbe403.testSessionOutcome sessionA
        = .thrown (.err (.httpResponse 403 "Forbidden" "errbody"))
  ∧ ensureInstalledOnShop cfgE envProbe403 reqDoc
        = .thrown (.resp ⟨403, "Forbidden", []⟩)
  ∧ (Res.thrown (.resp ⟨403, "Forbidden", []⟩) : Res Unit)
        ≠ .thrown (.resp respInternalServerError) := by
  refine ⟨rfl, by decide, by decide⟩

/-- C3 (amended): For every non-embedded-parameter document load of an
embedded-configured app whose stored offline session fails the liveness probe
(the shop-name query): a failure whose upstream status is 401 results in a
fresh OAuth begin flow; an `HttpResponseError` with any other status produces
a terminal response echoing that upstream status; a `GraphqlQueryError`
produces a terminal 500 response; any other probe failure is silently
swallowed and the check passes; and the probe is never run when the request
carries the `embedded=1` query parameter. -/
theorem c3_liveness_failure_mapping (cfg : AppConfig) (env : Admin.Env)
    (req : Request) (shop : String) (s : Session)
    (hshop : req.url.getParam ("shop") = some shop)
    (hload : env.loadSession (env.getOfflineId shop) = some s)
    (hemb : cfg.isEmbeddedApp = true) :
    ((req.url.getParam ("embedded") ≠ some "1") →
       (∀ st b, env.testSessionOutcome s
            = .thrown (.err (.httpResponse 401 st b)) →
          ensureInstalledOnShop cfg env req
            = .thrown (.resp (env.beginAuthResp false shop)))
     ∧ (∀ code st b, code ≠ 401 →
          env.testSessionOutcome s
            = .thrown (.err (.httpResponse code st b)) →
          ensureInstalledOnShop cfg env req = .thrown (.resp ⟨code, st, []⟩))
     ∧ (∀ m hr, env.testSessionOutcome s
            = .thrown (.err (.graphqlQuery m hr)) →
          ensureInstalledOnShop cfg env req
            = .thrown (.resp respInternalServerError))
     ∧ (∀ e : Exc, (∀ code st b, e ≠ .err (.httpResponse code st b)) →
          (∀ m hr, e ≠ .err (.graphqlQuery m hr)) →
          env.testSessionOutcome s = .thrown e →
          ensureInstalledOnShop cfg env req = .ok ()))
  ∧ ((req.url.getParam ("embedded") = some "1") →
       ensureInstalledOnShop cfg env req = .ok ()) := by
  constructor
  · intro hne
    have hbe : (req.url.getParam ("embedded") == some "1") = false :=
      beq_eq_false_iff_ne.mpr hne
    refine ⟨?_, ?_, ?_, ?_⟩
    · intro st b htest
      simp [ensureInstalledOnShop, hshop, hload, hemb, hbe, htest,
        handleInvalidOfflineSession, beginAuth]
    · intro code st b hcode htest
      have hc : (code == 401) = false := beq_eq_false_iff_ne.mpr hcode
      simp [ensureInstalledOnShop, hshop, hload, hemb, hbe, htest,
        handleInvalidOfflineSession, hc]
    · intro m hr htest
      simp [ensureInstalledOnShop, hshop, hload, hemb, hbe, htest,
        handleInvalidOfflineSession]
    · intro e h1 h2 htest
      match e, h1, h2 with
      | .resp r, _, _ =>
          simp [ensureInstalledOnShop, hshop, hload, hemb, hbe, htest,
            handleInvalidOfflineSession]
      | .err .cookieNotFound, _, _ =>
          simp [ensureInstalledOnShop, hshop, hload, hemb, hbe, htest,
            handleInvalidOfflineSession]
      | .err .invalidHmac, _, _ =>
          simp [ensureInstalledOnShop, hshop, hload, hemb, hbe, htest,
            handleInvalidOfflineSession]
      | .err .invalidOAuth, _, _ =>
          simp [ensureInstalledOnShop, hshop, hload, hemb, hbe, htest,
            handleInvalidOfflineSession]
      | .err .invalidJwt, _, _ =>
          simp [ensureInstalledOnShop, hshop, hload, hemb, hbe, htest,
            handleInvalidOfflineSession]
      | .err .invalidShop, _, _ =>
          simp [ensureInstalledOnShop, hshop, hload, hemb, hbe, htest,
            handleInvalidOfflineSession]
      | .err (.httpResponse c st b), h1, _ => exact absurd rfl (h1 c st b)
      | .err (.graphqlQuery m hr), _, h2 => exact absurd rfl (h2 m hr)
      | .err (.other m), _, _ =>
          simp [ensureInstalledOnShop, hshop, hload, hemb, hbe, htest,
            handleInvalidOfflineSession]
  · intro hembparam
    have hbe : (req.url.getParam ("embedded") == some "1") = true :=
      beq_iff_eq.mpr hembparam
    simp [ensureInstalledOnShop, hshop, hload, hbe]

/-- Witness for C3: a concrete document load whose probe fails with an
upstream 401 terminates with the fresh begin-flow redirect. -/
theorem c3_witness :
    ensureInstalledOnShop cfgE envProbe401 reqDoc
      = .thrown (.resp (envProbe401.beginAuthResp false "shop1.myshopify.com")) :=
  (((c3_liveness_failure_mapping cfgE envProbe401 reqDoc
      "shop1.myshopify.com" sessionA rfl rfl rfl).1 (by decide)).1
    "Unauthorized" "errbody" rfl)

/-- C4: For every document-load request (no bearer header, not one of the
auth paths) with a valid shop (and, for embedded configurations, host)
parameter whose shop has no stored offline session, the state machine
terminates before returning a session context: with the `embedded=1` query
parameter it terminates with the exit-iframe redirect response, otherwise
with the OAuth begin-flow redirect. -/
theorem c4_uninstalled_document_load (cfg : AppConfig) (env : Admin.Env)
    (req : Request) (shopRaw sShop : String)
    (hp1 : req.url.pathname ≠ cfg.auth.patchSessionTokenPath)
    (hp2 : req.url.pathname ≠ cfg.auth.exitIframePath)
    (hp3 : req.url.pathname ≠ cfg.auth.callbackPath)
    (hp4 : req.url.pathname ≠ cfg.auth.path)
    (hbearer : getSessionTokenHeader req = none)
    (hraw : req.url.getParam ("shop") = some shopRaw)
    (hsan : env.sanitizeShop (some shopRaw) = some sShop)
    (hhost : cfg.isEmbeddedApp = true →
       ∃ hv, env.sanitizeHost (req.url.getParam ("host")) = some hv)
    (hload : env.loadSession (env.getOfflineId shopRaw) = none) :
    ((req.url.getParam ("embedded") = some "1") →
       authenticateAndGetSessionContext cfg env req
         = .thrown (.resp (env.exitIframeResp shopRaw)))
  ∧ ((req.url.getParam ("embedded") ≠ some "1") →
       authenticateAndGetSessionContext cfg env req
         = .thrown (.resp (env.beginAuthResp false shopRaw))) := by
  have hb1 : (req.url.pathname == cfg.auth.patchSessionTokenPath) = false :=
    beq_eq_false_iff_ne.mpr hp1
  have hb2 : (req.url.pathname == cfg.auth.exitIframePath) = false :=
    beq_eq_false_iff_ne.mpr hp2
  have hb3 : (req.url.pathname == cfg.auth.callbackPath) = false :=
    beq_eq_false_iff_ne.mpr hp3
  have hb4 : (req.url.pathname == cfg.auth.path) = false :=
    beq_eq_false_iff_ne.mpr hp4
  have hval : validateUrlParams cfg env req = .ok () := by
    cases hc : cfg.isEmbeddedApp with
    | false => simp [validateUrlParams, hraw, hsan, hc]
    | true =>
        obtain ⟨hv, hsh⟩ := hhost hc
        simp [validateUrlParams, hraw, hsan, hc, hsh]
  constructor
  · intro hembparam
    have hbe : (req.url.getParam ("embedded") == some "1") = true :=
      beq_iff_eq.mpr hembparam
    have hens : ensureInstalledOnShop cfg env req
        = .thrown (.resp (env.exitIframeResp shopRaw)) := by
      simp [ensureInstalledOnShop, hraw, hload, hbe, redirectWithExitIframe]
    simp [authenticateAndGetSessionContext, hb1, hb2, hb3, hb4, hbearer,
      hval, hens]
  · intro hne
    have hbe : (req.url.getParam ("embedded") == some "1") = false :=
      beq_eq_false_iff_ne.mpr hne
    have hens : ensureInstalledOnShop cfg env req
        = .thrown (.resp (env.beginAuthResp false shopRaw)) := by
      simp [ensureInstalledOnShop, hraw, hload, hbe, beginAuth]
    simp [authenticateAndGetSessionContext, hb1, hb2, hb3, hb4, hbearer,
      hval, hens]

/-- Witness for C4: a concrete non-embedded document load for a shop with no
stored offline session terminates with the begin-flow redirect. -/
theorem c4_witness :
    authenticateAndGetSessionContext cfgE envBase reqDoc
      = .thrown (.resp (envBase.beginAuthResp false "shop1.myshopify.com")) :=
  (c4_uninstalled_document_load cfgE envBase reqDoc "shop1.myshopify.com"
      "shop1.myshopify.com" (by decide) (by decide) (by decide) (by decide)
      rfl rfl rfl (fun _ => ⟨"aG9zdA", rfl⟩) rfl).2 (by decide)

/-- C5 counterexample: a cross-origin OPTIONS preflight is answered with the
terminal 204 raised by `respondToOptionsRequest`, which is thrown before the
CORS decoration step and therefore lacks the `Access-Control-Allow-Origin`
header the claim requires on every terminal response. -/
theorem c5_counterexample :
    reqOptionsCross.getHeader ("Origin") ≠ some cfgE.appUrl
  ∧ authenticateAdmin cfgE envBase reqOptionsCross
      = .thrown (.resp respOptions204)
  ∧ ("Access-Control-Allow-Origin", "*") ∉ respOptions204.headers := by
  refine ⟨by decide, by decide, by decide⟩

/-- C5 (amended): For every request whose Origin header differs from the
configured app URL, every terminal `Response` raised during session-context
authentication (i.e. once the bot detector has passed and the request is not
an OPTIONS preflight — those two earlier responses are not decorated) carries
the headers `Access-Control-Allow-Origin: *`,
`Access-Control-Allow-Headers: Authorization`, and
`Access-Control-Expose-Headers` naming the re-auth-url header. -/
theorem c5_cors_on_auth_phase_responses (cfg : AppConfig) (env : Admin.Env)
    (req : Request) (r : Resp)
    (hbot : env.botOutcome = none)
    (hm : req.method ≠ "OPTIONS")
    (horigin : req.getHeader ("Origin") ≠ some cfg.appUrl)
    (h : authenticateAdmin cfg env req = .thrown (.resp r)) :
    ("Access-Control-Allow-Origin", "*") ∈ r.headers
  ∧ ("Access-Control-Allow-Headers", "Authorization") ∈ r.headers
  ∧ ("Access-Control-Expose-Headers", REAUTH_URL_HEADER) ∈ r.headers := by
  have hbm : (req.method == "OPTIONS") = false := beq_eq_false_iff_ne.mpr hm
  unfold authenticateAdmin rejectBotRequest respondToOptionsRequest at h
  rw [hbot, hbm] at h
  simp only [if_neg, Bool.false_eq_true, if_false] at h
  cases hctx : authenticateAndGetSessionContext cfg env req with
  | ok sc => rw [hctx] at h; simp at h
  | thrown e =>
      rw [hctx] at h
      cases e with
      | err k => simp at h
      | resp r0 =>
          simp only [Res.thrown.injEq, Exc.resp.injEq] at h
          subst h
          exact ensureCORSHeaders_mem cfg req r0 horigin

/-- Witness for C5: a concrete cross-origin request to the bounce path
raises the app-bridge response decorated with all three CORS headers. -/
theorem c5_witness :
    ("Access-Control-Allow-Origin", "*") ∈ respPatchCors.headers
  ∧ ("Access-Control-Allow-Headers", "Authorization") ∈ respPatchCors.headers
  ∧ ("Access-Control-Expose-Headers", REAUTH_URL_HEADER)
      ∈ respPatchCors.headers :=
  c5_cors_on_auth_phase_responses cfgE envBase reqPatch respPatchCors rfl
    (by decide) (by decide) (by decide)

/-- C6 counterexample: an OPTIONS request that the bot detector rejects is
answered with the detector's terminal 410 response, not the 204 preflight
response — the bot detector runs before the OPTIONS step, contradicting the
claimed ordering. -/
theorem c6_counterexample :
    reqOptionsCross.method = "OPTIONS"
  ∧ authenticateAdmin cfgE envBot reqOptionsCross
      = .thrown (.resp respBotRejected)
  ∧ respBotRejected ≠ respOptions204 := by
  refine ⟨rfl, by decide, by decide⟩

/-- C6 (amended): For every request with method OPTIONS that the bot
detector does not reject, `authenticateAdmin` terminates with a terminal 204
response carrying an `Access-Control-Max-Age` header before any other
authentication work (the result does not depend on any other collaborator);
the bot detector, however, is invoked before the OPTIONS step, and its
rejection takes precedence. -/
theorem c6_options_preflight_after_bot_check (cfg : AppConfig)
    (env : Admin.Env) (req : Request)
    (hbot : env.botOutcome = none)
    (hm : req.method = "OPTIONS") :
    authenticateAdmin cfg env req = .thrown (.resp respOptions204) := by
  have hbm : (req.method == "OPTIONS") = true := beq_iff_eq.mpr hm
  simp [authenticateAdmin, rejectBotRequest, respondToOptionsRequest, hbot, hbm]

/-- Witness for C6: a concrete OPTIONS request with a passing bot detector
terminates with the 204 preflight response. -/
theorem c6_witness :
    authenticateAdmin cfgE envBase reqOptionsCross
      = .thrown (.resp respOptions204) :=
  c6_options_preflight_after_bot_check cfgE envBase reqOptionsCross rfl rfl

/-- Witness for C10: a concrete SHOP_REDACT webhook with empty storage and a
session-token header returns a context with neither session nor admin, for a
token exchange that would succeed. -/
theorem c10_witness :
    ∃ ctx,
      authenticateWebhook
          { wenvBase with
            check := .valid "shop1.myshopify.com" "SHOP_REDACT" "2024-01" "wh-1" none
            tokenExchange := fun _ _ => .ok sessionA }
          reqWebhook
        = .ok ctx ∧ ctx.session = none ∧ ctx.admin = none :=
  ((c10_shop_redact_and_pairing
      { wenvBase with
        check := .valid "shop1.myshopify.com" "SHOP_REDACT" "2024-01" "wh-1" none
        tokenExchange := fun _ _ => .ok sessionA }
      reqWebhook).1
    "shop1.myshopify.com" "2024-01" "wh-1" none rfl rfl rfl).2

end ShopifyAuth
